import Mathlib

/-!
Verification of the bidirectional database synchronization engine
(`src/tauri-sync-db-backend/src/sync.rs` and
`src/tauri-sync-db-backend/src/backend/mod.rs`).

Rows are positionally aligned nullable text values, matching the local
`query_strings` accessor and the remote wire conversion.  SQL effects of the
generated statements (`SELECT ... WHERE updated_at > w`, the guarded upsert
batch, `INSERT OR REPLACE`) are modelled with type-consistent stored values:
an integer-typed `updated_at` column holds decimal text that parses as a
64-bit integer.  Time (`now`) and remote call outcomes are parameters.
-/

namespace SyncDb

/-- A database row: nullable text values positionally aligned with a column list. -/
abbrev Row := List (Option String)

/-- Index of the first occurrence of a column name, counting from `i`. -/
def idxOfAux : List String → String → Nat → Option Nat
  | [], _, _ => none
  | c :: rest, name, i => if c = name then some i else idxOfAux rest name (i + 1)

/-- Index of the first occurrence of a column name. -/
def idxOf (cols : List String) (name : String) : Option Nat :=
  idxOfAux cols name 0

/-- Value of column `name` in row `r` (SQL `SELECT name`): first matching
column, NULL and out-of-range both give `none`. -/
def getCol (cols : List String) (name : String) (r : Row) : Option String :=
  match idxOf cols name with
  | some i => (r[i]?).bind (fun x => x)
  | none => none

/-- Decimal digits to a number; `none` when empty or a non-digit appears. -/
def digitsToNat? : List Char → Option Nat
  | [] => none
  | l =>
    if l.all Char.isDigit then
      some (l.foldl (fun acc c => acc * 10 + (c.toNat - 48)) 0)
    else none

/-- Rust `str::parse::<i64>`: optional sign, decimal digits, 64-bit range. -/
def parseI64? (s : String) : Option Int :=
  let signDigits : Int × List Char :=
    match s.data with
    | '+' :: rest => (1, rest)
    | '-' :: rest => (-1, rest)
    | l => (1, l)
  match digitsToNat? signDigits.2 with
  | some n =>
    let v : Int := signDigits.1 * n
    if -((2 : Int) ^ 63) ≤ v ∧ v < (2 : Int) ^ 63 then some v else none
  | none => none

/-- Lexicographic order on character lists by code point; on UTF-8 encoded
text this coincides with Rust's byte-wise `String` order. -/
def charListLt : List Char → List Char → Bool
  | [], [] => false
  | [], _ :: _ => true
  | _ :: _, [] => false
  | a :: as, b :: bs =>
    if a < b then true
    else if b < a then false
    else charListLt as bs

/-- Rust `String` order (`local_updated > remote_updated_at` compares the
two text values byte-wise). -/
def strLt (a b : String) : Bool := charListLt a.data b.data

/-- SQL `a > b` as issued by the push/pull diff queries and the push upsert
guard: numeric when the table's `updated_at` column is integer-typed, text
comparison otherwise; NULL never compares greater. -/
def sqlGtOpt (isInt : Bool) (a b : Option String) : Bool :=
  match a, b with
  | some x, some y =>
    if isInt then
      match parseI64? x, parseI64? y with
      | some xi, some yi => decide (yi < xi)
      | _, _ => false
    else strLt y x
  | _, _ => false

/-- `SELECT <cols> FROM <table> WHERE updated_at > <watermark>`. -/
def selectNewer (isInt : Bool) (cols : List String) (w : String) (tbl : List Row) : List Row :=
  tbl.filter (fun r => sqlGtOpt isInt (getCol cols "updated_at" r) (some w))

/-- Lookup in the pull loop's row map: the map holds, for each column name,
the last non-NULL cell at that name (the `HashMap` insert is skipped for NULL
cells, so an earlier value survives a later NULL). -/
def rowMapGet (cols : List String) (row : Row) (key : String) : Option String :=
  (cols.zip row).foldl
    (fun acc p =>
      if p.1 = key then
        match p.2 with
        | some v => some v
        | none => acc
      else acc)
    none

/-- Primary-key equality conditions collected by the pull loop; a missing or
empty value is dropped. -/
def pkConds (cols pks : List String) (row : Row) : List (String × String) :=
  pks.filterMap (fun pk =>
    let v := (rowMapGet cols row pk).getD ""
    if v = "" then none else some (pk, v))

/-- SQL `WHERE pk1 = v1 AND pk2 = v2 AND ...` as a row predicate. -/
def rowMatches (cols : List String) (conds : List (String × String)) (r : Row) : Bool :=
  conds.all (fun c => getCol cols c.1 r == some c.2)

/-- `SELECT updated_at FROM <table> WHERE <conds>` through `query_row`: the
first matching row's `updated_at`; `none` when no row matches or the stored
value is NULL (reading NULL as `String` fails, which the caller treats the
same as no matching row). -/
def localUaLookup (cols : List String) (tbl : List Row) (conds : List (String × String)) :
    Option String :=
  (tbl.find? (rowMatches cols conds)).bind (getCol cols "updated_at")

/-- Two rows agree on every primary-key column. -/
def pkEq (cols pks : List String) (r1 r2 : Row) : Bool :=
  pks.all (fun pk => getCol cols pk r1 == getCol cols pk r2)

/-- `INSERT OR REPLACE`: rows sharing the primary key are removed, the new
row is appended. -/
def upsertReplace (cols pks : List String) (tbl : List Row) (row : Row) : List Row :=
  tbl.filter (fun r => !pkEq cols pks row r) ++ [row]

/-- Body of the pull loop for one fetched remote row: skip when any
primary-key value is missing or empty; count a collision and keep the local
row when the local `updated_at` string is greater than the remote one
(Rust `String` comparison); otherwise upsert the row. -/
def processPullRow (cols pks : List String) (acc : List Row × Nat) (row : Row) :
    List Row × Nat :=
  let conds := pkConds cols pks row
  if conds.length ≠ pks.length then acc
  else
    let rua := (rowMapGet cols row "updated_at").getD ""
    match localUaLookup cols acc.1 conds with
    | some lu =>
      if strLt rua lu then (acc.1, acc.2 + 1)
      else (upsertReplace cols pks acc.1 row, acc.2)
    | none => (upsertReplace cols pks acc.1 row, acc.2)

/-- `pull_changes`: fetch the remote rows newer than the watermark, then run
the pull loop inside one local transaction.  Returns the fetched rows and the
new local table with the collision count. -/
def pullChanges (isInt : Bool) (cols pks : List String) (w : String)
    (remoteTbl localTbl : List Row) : List Row × (List Row × Nat) :=
  let fetched := selectNewer isInt cols w remoteTbl
  (fetched, fetched.foldl (processPullRow cols pks) (localTbl, 0))

/-- Remote effect of one generated
`INSERT ... ON CONFLICT(<pks>) DO UPDATE SET ... WHERE excluded.updated_at > t.updated_at`:
insert when no row shares the key, otherwise update in place only when the
incoming `updated_at` is strictly greater. -/
def applyPushUpsert (isInt : Bool) (cols pks : List String) (remote : List Row) (nr : Row) :
    List Row :=
  if remote.any (pkEq cols pks nr) then
    remote.map (fun old =>
      if pkEq cols pks nr old then
        if sqlGtOpt isInt (getCol cols "updated_at" nr) (getCol cols "updated_at" old) then nr
        else old
      else old)
  else remote ++ [nr]

/-- `push_changes`: select the local rows newer than the watermark and execute
the batch of guarded upserts remotely.  Returns the selected rows and the new
remote table.  An empty column list returns before issuing any query. -/
def pushChanges (isInt : Bool) (cols pks : List String) (w : String)
    (localTbl remoteTbl : List Row) : List Row × List Row :=
  if cols.isEmpty then ([], remoteTbl)
  else
    let sel := selectNewer isInt cols w localTbl
    (sel, sel.foldl (applyPushUpsert isInt cols pks) remoteTbl)

/-- Leap year in the proleptic Gregorian calendar. -/
def isLeapYear (y : Nat) : Bool :=
  y % 4 == 0 && (y % 100 != 0 || y % 400 == 0)

/-- Number of days of month `m` in year `y`. -/
def daysInMonth (y m : Nat) : Nat :=
  if m = 2 then (if isLeapYear y then 29 else 28)
  else if m = 4 ∨ m = 6 ∨ m = 9 ∨ m = 11 then 30
  else 31

/-- Days from 1970-01-01 to the given civil date (valid for years 0–9999,
months 1–12): the standard era/year-of-era decomposition, shifted by 400
years so all intermediate values are natural numbers. -/
def daysFromCivil (y m d : Nat) : Int :=
  let ys := if m ≤ 2 then y + 399 else y + 400
  let era := ys / 400
  let yoe := ys % 400
  let mp := (m + 9) % 12
  let doy := (153 * mp + 2) / 5 + d - 1
  let doe := yoe * 365 + yoe / 4 - yoe / 100 + doy
  ((era * 146097 + doe : Nat) : Int) - 865565

/-- Two decimal digit characters to a number. -/
def twoDigits? (a b : Char) : Option Nat :=
  if a.isDigit && b.isDigit then some ((a.toNat - 48) * 10 + (b.toNat - 48)) else none

/-- chrono `NaiveDateTime::parse_from_str(s, "%Y-%m-%d %H:%M:%S")` followed by
`.and_utc().timestamp_millis()`, modelled for the zero-padded 19-character
form: the whole input must be consumed and every field must be in range. -/
def parseDateTimeMillis (s : String) : Option Int :=
  match s.data with
  | [y1, y2, y3, y4, '-', m1, m2, '-', d1, d2, ' ',
     h1, h2, ':', n1, n2, ':', s1, s2] =>
    match twoDigits? y1 y2, twoDigits? y3 y4, twoDigits? m1 m2, twoDigits? d1 d2,
        twoDigits? h1 h2, twoDigits? n1 n2, twoDigits? s1 s2 with
    | some yh, some yl, some mo, some dy, some hh, some mi, some ss =>
      let yr := yh * 100 + yl
      if 1 ≤ mo ∧ mo ≤ 12 ∧ 1 ≤ dy ∧ dy ≤ daysInMonth yr mo ∧
          hh ≤ 23 ∧ mi ≤ 59 ∧ ss ≤ 59 then
        some ((daysFromCivil yr mo dy * 86400 + (hh * 3600 + mi * 60 + ss : Nat)) * 1000)
      else none
    | _, _, _, _, _, _, _ => none
  | _ => none

/-- Default watermark when no ledger row exists. -/
def defaultWatermark (isInt : Bool) : String :=
  if isInt then "0" else "1970-01-01 00:00:00"

/-- The `sync_status` ledger entry for one table: the nullable stored
`last_sync_time` and the sync counter. -/
abbrev StatusEntry := Option String × Nat

/-- Read the stored watermark, defaulting when the ledger row is absent or
its value is NULL. -/
def readWatermark (isInt : Bool) (status : Option StatusEntry) : String :=
  match status with
  | some (some v, _) => v
  | _ => defaultWatermark isInt

/-- Integer-typed tables reinterpret a non-integer stored watermark as a
legacy date-time string converted to epoch milliseconds; if that also fails
the watermark resets to zero instead of failing the cycle. -/
def normalizeWatermark (isInt : Bool) (w : String) : String :=
  if isInt then
    match parseI64? w with
    | some _ => w
    | none =>
      match parseDateTimeMillis w with
      | some ms => toString ms
      | none => "0"
  else w

/-- Observable single-table state: local rows, remote rows, and the table's
`sync_status` ledger row. -/
structure TableState where
  localTbl : List Row
  remoteTbl : List Row
  status : Option StatusEntry

/-- What one `sync_table` cycle did: the watermark its queries filtered on,
the rows pushed, the rows fetched by pull, and the local-wins collision count. -/
structure SyncReport where
  usedWatermark : String
  pushedRows : List Row
  fetchedRows : List Row
  conflictCount : Nat

/-- `sync_table`: capture `now`, read and normalize the stored watermark,
push, pull, then upsert the ledger row with `now` and an incremented counter
(starting at 1 when no prior record exists). -/
def syncTable (isInt : Bool) (cols pks : List String) (now : String) (st : TableState) :
    TableState × SyncReport :=
  let w := normalizeWatermark isInt (readWatermark isInt st.status)
  let pushed := pushChanges isInt cols pks w st.localTbl st.remoteTbl
  let pulled := pullChanges isInt cols pks w pushed.2 st.localTbl
  let newCount : Nat :=
    match st.status with
    | some (_, c) => c + 1
    | none => 1
  (⟨pulled.2.1, pushed.2, some (some now, newCount)⟩,
   ⟨w, pushed.1, pulled.1, pulled.2.2⟩)

/-- Stored `last_sync_time` of the ledger row, when present and non-NULL. -/
def storedWatermark (st : TableState) : Option String :=
  match st.status with
  | some (v, _) => v
  | none => none

/-- Bounded row timestamp: the row's `updated_at` parses as an integer that
is at most `bound`. -/
def uaIntLe (cols : List String) (bound : Int) (r : Row) : Bool :=
  match (getCol cols "updated_at" r).bind parseI64? with
  | some i => decide (i ≤ bound)
  | none => false

/-- Watermark order in the encoding of the table's `updated_at` column:
numeric for integer-typed tables, text otherwise. -/
def wmLeB (isInt : Bool) (a b : String) : Bool :=
  if isInt then
    match parseI64? a, parseI64? b with
    | some x, some y => decide (x ≤ y)
    | _, _ => false
  else a == b || strLt a b

/-- JSON scalar as converted by `fetch_remote_rows`; numbers and
non-primitive values carry their rendered text. -/
inductive JsonValue where
  | null
  | str (s : String)
  | num (rendered : String)
  | boolean (b : Bool)
  | composite (rendered : String)
deriving DecidableEq

/-- One statement's result set. -/
structure TursoResultSet where
  columns : List String
  rows : List (List JsonValue)
deriving DecidableEq

/-- One per-statement outcome (serde-untagged: the success shape is tried
first, then the error shape). -/
inductive TursoItemResponse where
  | success (results : TursoResultSet)
  | error (message : String)
deriving DecidableEq

/-- An HTTP response from the remote endpoint; `parsedBody` is the outcome of
deserializing `bodyText` as the per-statement result array. -/
structure RemoteHttpResponse where
  statusCode : Nat
  bodyText : String
  parsedBody : Option (List TursoItemResponse)

/-- 2xx check (`reqwest` `Status::is_success`). -/
def isSuccessStatus (c : Nat) : Bool := 200 ≤ c && c < 300

/-- Index and message of the first statement reporting an error. -/
def firstBatchErrorAux : List TursoItemResponse → Nat → Option (Nat × String)
  | [], _ => none
  | .success _ :: rest, i => firstBatchErrorAux rest (i + 1)
  | .error m :: _, i => some (i, m)

/-- Index and message of the first statement reporting an error. -/
def firstBatchError (items : List TursoItemResponse) : Option (Nat × String) :=
  firstBatchErrorAux items 0

/-- `execute_remote_batch`: a non-success status fails the call before any
per-statement parsing; with a success status, an unparseable body is only
logged and the call succeeds; otherwise the first per-statement error fails
the call with that error's message. -/
def executeRemoteBatch (resp : RemoteHttpResponse) : Except String Unit :=
  if !isSuccessStatus resp.statusCode then
    .error ("Server error: " ++ toString resp.statusCode ++ " - " ++ resp.bodyText)
  else
    match resp.parsedBody with
    | some items =>
      match firstBatchError items with
      | some im => .error ("Batch statement " ++ toString im.1 ++ " failed: " ++ im.2)
      | none => .ok ()
    | none => .ok ()

/-- Remote JSON scalar to the nullable-text cell encoding. -/
def jsonCellToOptString : JsonValue → Option String
  | .null => none
  | .str s => some s
  | .num r => some r
  | .boolean b => some (if b then "true" else "false")
  | .composite r => some r

/-- `fetch_remote_rows`: parses the body with no status check; fails when the
body does not parse or the first statement reports an error; an empty
response array yields no rows. -/
def fetchRemoteRows (resp : RemoteHttpResponse) : Except String (List Row) :=
  match resp.parsedBody with
  | none => .error ("Parse error (Body: " ++ resp.bodyText ++ ")")
  | some items =>
    match items with
    | [] => .ok []
    | .error m :: _ => .error m
    | .success rs :: _ => .ok (rs.rows.map (fun r => r.map jsonCellToOptString))

/-- The per-table failure messages collected by the `sync_all` fan-in. -/
def collectErrors (results : List (Except String Unit)) : List String :=
  results.filterMap (fun r =>
    match r with
    | .ok _ => none
    | .error e => some e)

/-- Fan-in of `sync_all`: every per-table outcome is inspected (no
short-circuit); the call succeeds only when the error list stayed empty,
otherwise one aggregate error carrying the count and the list of failures. -/
def syncAllAggregate (results : List (Except String Unit)) : Except String Unit :=
  let errors := collectErrors results
  if errors.isEmpty then .ok ()
  else .error ("Sync completed with " ++ toString errors.length ++ " errors: " ++ toString errors)

end SyncDb

namespace Backend

/-- Connection-manager state (`DbState`): the database and connection handles
(modelled by presence flags), the cloud-sync flag and the sync URL. -/
structure DbState where
  hasDb : Bool
  hasConn : Bool
  isSyncEnabled : Bool
  syncUrl : String
deriving DecidableEq

/-- `close`: clear both handles; the sync flag and URL are untouched. -/
def DbState.close (s : DbState) : DbState :=
  { s with hasDb := false, hasConn := false }

/-- `is_cloud_sync_enabled`. -/
def DbState.isCloudSyncEnabled (s : DbState) : Bool := s.isSyncEnabled

/-- `get_sync_url`. -/
def DbState.getSyncUrl (s : DbState) : String := s.syncUrl

/-- `get_connection`: the connection clone, or the not-initialized error. -/
def DbState.getConnection (s : DbState) : Except String Unit :=
  if s.hasConn then .ok () else .error "Database not initialized"

/-- Does the pattern occur at the head of the character list. -/
def charsStartWith : List Char → List Char → Bool
  | [], _ => true
  | _ :: _, [] => false
  | a :: as, b :: bs => a == b && charsStartWith as bs

/-- Does the pattern occur anywhere in the character list. -/
def charsContains : List Char → List Char → Bool
  | [], pat => pat.isEmpty
  | c :: rest, pat => charsStartWith pat (c :: rest) || charsContains rest pat

/-- Rust `str::contains` for string patterns. -/
def strContains (s pat : String) : Bool := charsContains s.data pat.data

/-- The known incompatible-generation signatures checked before auto-recovery. -/
def shouldRecover (e : String) : Bool :=
  strContains e "local state is incorrect"
    || strContains e "invalid local state"
    || strContains e "server returned a conflict"
    || strContains e "Generation ID mismatch"
    || strContains e "mismatch"
    || strContains e "metadata file does not"

/-- Split a character list on a separator character. -/
def splitChar (sep : Char) (l : List Char) : List (List Char) :=
  l.foldr
    (fun a acc =>
      match acc with
      | [] => [[a]]
      | g :: gs => if a == sep then [] :: g :: gs else (a :: g) :: gs)
    [[]]

/-- Join character-list groups with a separator character. -/
def joinChar (sep : Char) : List (List Char) → List Char
  | [] => []
  | [g] => g
  | g :: g2 :: gs => g ++ sep :: joinChar sep (g2 :: gs)

/-- Rust `Path::with_extension` for file names of the form `name.ext`:
everything after the last dot of the file name is replaced by `ext`. -/
def withExtension (p ext : String) : String :=
  let parts := splitChar '/' p.data
  let file := parts.getLastD []
  let newFile :=
    match splitChar '.' file with
    | [single] => single ++ '.' :: ext.data
    | segs => joinChar '.' segs.dropLast ++ '.' :: ext.data
  ⟨joinChar '/' (parts.dropLast ++ [newFile])⟩

/-- The quarantine backup path (`with_extension("db.legacy")`). -/
def legacyPath (db : String) : String := withExtension db "db.legacy"

/-- The write-ahead-log side file (`with_extension("db-wal")`). -/
def walPath (db : String) : String := withExtension db "db-wal"

/-- The shared-memory side file (`with_extension("db-shm")`). -/
def shmPath (db : String) : String := withExtension db "db-shm"

/-- The replication-metadata directory `<parent>/<file_name>-sync`. -/
def syncDirPath (db : String) : String :=
  let parts := splitChar '/' db.data
  ⟨joinChar '/' (parts.dropLast ++ [parts.getLastD [] ++ "-sync".data])⟩

/-- One observable action of the bootstrap recovery path. -/
inductive RecoveryStep where
  | removeFile (p : String)
  | renameFile (src dst : String)
  | removeDirAll (p : String)
  | buildAttempt
deriving DecidableEq

/-- How `init_cloud_db_connection` ends up. -/
inductive InitOutcome where
  | cloud
  | localOnly
deriving DecidableEq

/-- Filesystem facts the recovery path branches on. -/
structure FsEnv where
  legacyExists : Bool
  renameFails : Bool
  syncDirExists : Bool
  syncDirIsDir : Bool

/-- External outcomes: connection validation and the two possible
build-connect-initial-sync attempts (`try_build_connect`). -/
structure CloudEnv where
  validateOk : Bool
  firstBuild : Except String Unit
  secondBuild : Except String Unit
  fs : FsEnv

/-- `init_cloud_db_connection`: validation failure falls back to local
before any build; a build failure matching a known signature quarantines the
local file (delete any prior backup, rename to the quarantine suffix — or
delete when the rename fails — delete the WAL/SHM side files and the
metadata directory) and retries exactly once; any other failure, or a failed
retry, falls back to local-only.  Returns the outcome and the performed steps. -/
def initCloudDbConnection (dbPath : String) (env : CloudEnv) :
    InitOutcome × List RecoveryStep :=
  if !env.validateOk then (.localOnly, [])
  else
    match env.firstBuild with
    | .ok _ => (.cloud, [.buildAttempt])
    | .error e =>
      if shouldRecover e then
        let backupSteps :=
          (if env.fs.legacyExists then [RecoveryStep.removeFile (legacyPath dbPath)] else [])
            ++ (if env.fs.renameFails then [RecoveryStep.removeFile dbPath]
                else [RecoveryStep.renameFile dbPath (legacyPath dbPath)])
        let metaSteps :=
          [RecoveryStep.removeFile (walPath dbPath), RecoveryStep.removeFile (shmPath dbPath)]
            ++ (if env.fs.syncDirExists then
                  (if env.fs.syncDirIsDir then [RecoveryStep.removeDirAll (syncDirPath dbPath)]
                   else [RecoveryStep.removeFile (syncDirPath dbPath)])
                else [])
        let steps :=
          [RecoveryStep.buildAttempt] ++ backupSteps ++ metaSteps ++ [RecoveryStep.buildAttempt]
        match env.secondBuild with
        | .ok _ => (.cloud, steps)
        | .error _ => (.localOnly, steps)
      else (.localOnly, [RecoveryStep.buildAttempt])

end Backend

namespace SyncDb

theorem length_filterMap_lt {α β : Type} (f : α → Option β) :
    ∀ (l : List α) (x : α), x ∈ l → f x = none → (l.filterMap f).length < l.length := by
  intro l
  induction l with
  | nil => intro x hx; cases hx
  | cons a as ih =>
    intro x hx hfx
    rcases List.mem_cons.mp hx with rfl | hmem
    · rw [List.filterMap_cons_none hfx]
      exact Nat.lt_succ_of_le (List.length_filterMap_le f as)
    · cases hfa : f a with
      | none =>
        rw [List.filterMap_cons_none hfa]
        exact Nat.lt_succ_of_le (List.length_filterMap_le f as)
      | some b =>
        rw [List.filterMap_cons_some hfa]
        simpa using ih x hmem hfx

theorem selectNewer_nil_cols (isInt : Bool) (w : String) (tbl : List Row) :
    selectNewer isInt [] w tbl = [] := by
  rw [selectNewer, List.filter_eq_nil_iff]
  intro r hrm
  simp [getCol, idxOf, idxOfAux, sqlGtOpt]

theorem pushChanges_fst_eq (isInt : Bool) (cols pks : List String) (w : String)
    (l rem : List Row) :
    (pushChanges isInt cols pks w l rem).1 = selectNewer isInt cols w l := by
  cases cols with
  | nil => simp [pushChanges, selectNewer_nil_cols]
  | cons c cs => simp [pushChanges]

theorem pushChanges_of_sel_nil (isInt : Bool) (cols pks : List String) (w : String)
    (l rem : List Row) (h : selectNewer isInt cols w l = []) :
    pushChanges isInt cols pks w l rem = ([], rem) := by
  cases cols with
  | nil => rfl
  | cons c cs => simp [pushChanges, h]

theorem pullChanges_of_sel_nil (isInt : Bool) (cols pks : List String) (w : String)
    (rem l : List Row) (h : selectNewer isInt cols w rem = []) :
    pullChanges isInt cols pks w rem l = ([], (l, 0)) := by
  simp [pullChanges, h]

theorem mem_upsertReplace (cols pks : List String) (tbl : List Row) (row r : Row)
    (h : r ∈ upsertReplace cols pks tbl row) : r ∈ tbl ∨ r = row := by
  unfold upsertReplace at h
  rcases List.mem_append.mp h with h | h
  · exact Or.inl (List.mem_of_mem_filter h)
  · exact Or.inr (List.mem_singleton.mp h)

theorem mem_processPullRow_fst (cols pks : List String) (acc : List Row × Nat)
    (row r : Row) (h : r ∈ (processPullRow cols pks acc row).1) :
    r ∈ acc.1 ∨ r = row := by
  simp only [processPullRow] at h
  split at h
  · exact Or.inl h
  · split at h
    · split at h
      · exact Or.inl h
      · exact mem_upsertReplace cols pks acc.1 row r h
    · exact mem_upsertReplace cols pks acc.1 row r h

theorem mem_pullFoldAux (cols pks : List String) :
    ∀ (rows : List Row) (acc : List Row × Nat) (r : Row),
      r ∈ (rows.foldl (processPullRow cols pks) acc).1 → r ∈ acc.1 ∨ r ∈ rows := by
  intro rows
  induction rows with
  | nil => intro acc r h; exact Or.inl h
  | cons a as ih =>
    intro acc r h
    rw [List.foldl_cons] at h
    rcases ih _ r h with h2 | h2
    · rcases mem_processPullRow_fst cols pks acc a r h2 with h3 | h3
      · exact Or.inl h3
      · exact Or.inr (by rw [h3]; exact List.mem_cons_self a as)
    · exact Or.inr (List.mem_cons_of_mem a h2)

theorem mem_applyPushUpsert (isInt : Bool) (cols pks : List String)
    (remote : List Row) (nr r : Row)
    (h : r ∈ applyPushUpsert isInt cols pks remote nr) : r ∈ remote ∨ r = nr := by
  unfold applyPushUpsert at h
  split at h
  · rcases List.mem_map.mp h with ⟨old, hold, heq⟩
    split at heq
    · split at heq
      · exact Or.inr heq.symm
      · exact Or.inl (heq ▸ hold)
    · exact Or.inl (heq ▸ hold)
  · rcases List.mem_append.mp h with h | h
    · exact Or.inl h
    · exact Or.inr (List.mem_singleton.mp h)

theorem mem_pushFoldAux (isInt : Bool) (cols pks : List String) :
    ∀ (sel remote : List Row) (r : Row),
      r ∈ sel.foldl (applyPushUpsert isInt cols pks) remote → r ∈ remote ∨ r ∈ sel := by
  intro sel
  induction sel with
  | nil => intro remote r h; exact Or.inl h
  | cons a as ih =>
    intro remote r h
    rw [List.foldl_cons] at h
    rcases ih _ r h with h2 | h2
    · rcases mem_applyPushUpsert isInt cols pks remote a r h2 with h3 | h3
      · exact Or.inl h3
      · exact Or.inr (by rw [h3]; exact List.mem_cons_self a as)
    · exact Or.inr (List.mem_cons_of_mem a h2)

theorem mem_pushChanges_snd (isInt : Bool) (cols pks : List String) (w : String)
    (l rem : List Row) (r : Row)
    (h : r ∈ (pushChanges isInt cols pks w l rem).2) : r ∈ rem ∨ r ∈ l := by
  unfold pushChanges at h
  split at h
  · exact Or.inl h
  · rcases mem_pushFoldAux isInt cols pks (selectNewer isInt cols w l) rem r h with h2 | h2
    · exact Or.inl h2
    · exact Or.inr (List.mem_of_mem_filter h2)

theorem mem_pullChanges_fst_local (isInt : Bool) (cols pks : List String) (w : String)
    (rem l : List Row) (r : Row)
    (h : r ∈ (pullChanges isInt cols pks w rem l).2.1) : r ∈ l ∨ r ∈ rem := by
  rcases mem_pullFoldAux cols pks (selectNewer isInt cols w rem) (l, 0) r h with h2 | h2
  · exact Or.inl h2
  · exact Or.inr (List.mem_of_mem_filter h2)

theorem sel_nil_of_bounded (cols : List String) (b bw : Int) (w : String)
    (tbl : List Row)
    (hb : ∀ r ∈ tbl, uaIntLe cols b r = true)
    (hw : parseI64? w = some bw) (hle : b ≤ bw) :
    selectNewer true cols w tbl = [] := by
  rw [selectNewer, List.filter_eq_nil_iff]
  intro r hrm
  have h := hb r hrm
  unfold uaIntLe at h
  cases hcol : getCol cols "updated_at" r with
  | none => simp [sqlGtOpt, hcol]
  | some v =>
    rw [hcol] at h
    cases hp : parseI64? v with
    | none => rw [Option.some_bind, hp] at h; exact absurd h (by simp)
    | some i =>
      rw [Option.some_bind, hp] at h
      have hi : i ≤ b := of_decide_eq_true h
      simp only [sqlGtOpt, hp, hw]
      simp [not_lt.mpr (hi.trans hle)]

end SyncDb

/-- C1 counterexample: with an integer-typed `updated_at`, a local row with
`updated_at = "10"` (T2 = 10) and an incoming remote row with the same key
and `updated_at = "9"` (T1 = 9, numerically T1 < T2), pull overwrites the
local row and records zero conflicts, because the conflict check compares
the two values as strings and the string "10" is less than "9". -/
theorem C1_counterexample :
    SyncDb.parseI64? "9" = some 9 ∧ SyncDb.parseI64? "10" = some 10 ∧ (9 : Int) < 10 ∧
    SyncDb.pullChanges true ["id", "updated_at"] ["id"] "0"
        [[some "1", some "9"]] [[some "1", some "10"]] =
      ([[some "1", some "9"]], ([[some "1", some "9"]], 0)) ∧
    (SyncDb.pullChanges true ["id", "updated_at"] ["id"] "0"
        [[some "1", some "9"]] [[some "1", some "10"]]).2 ≠ ([[some "1", some "10"]], 1) :=
  ⟨by decide, by decide, by decide, by decide, by decide⟩

/-- C1 (amended): during pull, an incoming remote row with a complete
primary key is skipped without any local write and with exactly one recorded
conflict precisely when a local row matches its primary key and the local
row's `updated_at` STRING is lexicographically greater than the incoming
one; in every other case (no matching local row, or local `updated_at` not
string-greater) the row is upserted locally.  The source compares the
string encodings, which agrees with the numeric order only when both
encodings have equal length. -/
theorem C1_local_wins_lexicographic (cols pks : List String) (tbl : List SyncDb.Row)
    (n : Nat) (row : SyncDb.Row)
    (hc : (SyncDb.pkConds cols pks row).length = pks.length) :
    (∀ lu, SyncDb.localUaLookup cols tbl (SyncDb.pkConds cols pks row) = some lu →
      ((SyncDb.strLt ((SyncDb.rowMapGet cols row "updated_at").getD "") lu = true →
        SyncDb.processPullRow cols pks (tbl, n) row = (tbl, n + 1)) ∧
       (SyncDb.strLt ((SyncDb.rowMapGet cols row "updated_at").getD "") lu = false →
        SyncDb.processPullRow cols pks (tbl, n) row =
          (SyncDb.upsertReplace cols pks tbl row, n)))) ∧
    (SyncDb.localUaLookup cols tbl (SyncDb.pkConds cols pks row) = none →
      SyncDb.processPullRow cols pks (tbl, n) row =
        (SyncDb.upsertReplace cols pks tbl row, n)) := by
  constructor
  · intro lu hlu
    constructor
    · intro hlt
      simp [SyncDb.processPullRow, hc, hlu, hlt]
    · intro hnlt
      simp [SyncDb.processPullRow, hc, hlu, hnlt]
  · intro hnone
    simp [SyncDb.processPullRow, hc, hnone]

/-- C1 witness: local row with key "1" and `updated_at` "5"; incoming row
with key "1" and `updated_at` "3": the local table is unchanged and one
conflict is counted. -/
theorem C1_witness :
    SyncDb.processPullRow ["id", "updated_at"] ["id"]
        ([[some "1", some "5"]], 0) [some "1", some "3"] =
      ([[some "1", some "5"]], 1) :=
  ((C1_local_wins_lexicographic ["id", "updated_at"] ["id"] [[some "1", some "5"]] 0
      [some "1", some "3"] (by decide)).1 "5" (by decide)).1 (by decide)

/-- C5: during pull, an incoming row in which some primary-key column has a
missing (NULL) or empty value is skipped silently: the local table and the
collision count are unchanged, and the fold simply continues with the
remaining fetched rows. -/
theorem C5_incomplete_pk_skipped (cols pks : List String) (tbl : List SyncDb.Row)
    (n : Nat) (row : SyncDb.Row) (rest : List SyncDb.Row) (pk : String)
    (hpk : pk ∈ pks)
    (hv : SyncDb.rowMapGet cols row pk = none ∨ SyncDb.rowMapGet cols row pk = some "") :
    SyncDb.processPullRow cols pks (tbl, n) row = (tbl, n) ∧
    (row :: rest).foldl (SyncDb.processPullRow cols pks) (tbl, n) =
      rest.foldl (SyncDb.processPullRow cols pks) (tbl, n) := by
  have hdrop :
      (fun pk0 =>
        let v := (SyncDb.rowMapGet cols row pk0).getD ""
        if v = "" then none else some (pk0, v)) pk = (none : Option (String × String)) := by
    rcases hv with h | h <;> simp [h]
  have hlt : (SyncDb.pkConds cols pks row).length < pks.length := by
    unfold SyncDb.pkConds
    exact SyncDb.length_filterMap_lt _ pks pk hpk hdrop
  have hne : (SyncDb.pkConds cols pks row).length ≠ pks.length := Nat.ne_of_lt hlt
  have h1 : SyncDb.processPullRow cols pks (tbl, n) row = (tbl, n) := by
    simp [SyncDb.processPullRow, hne]
  exact ⟨h1, by rw [List.foldl_cons, h1]⟩

/-- C5 witness: a fetched row whose primary-key cell is NULL is skipped and
processing continues unchanged. -/
theorem C5_witness :
    SyncDb.processPullRow ["id", "updated_at"] ["id"]
        ([[some "7", some "1"]], 0) [none, some "5"] = ([[some "7", some "1"]], 0) ∧
    ([[none, some "5"]] : List SyncDb.Row).foldl
        (SyncDb.processPullRow ["id", "updated_at"] ["id"]) ([[some "7", some "1"]], 0) =
      ([] : List SyncDb.Row).foldl
        (SyncDb.processPullRow ["id", "updated_at"] ["id"]) ([[some "7", some "1"]], 0) :=
  C5_incomplete_pk_skipped ["id", "updated_at"] ["id"] [[some "7", some "1"]] 0
    [none, some "5"] [] "id" (by simp) (Or.inl (by decide))

/-- C6 counterexample: a non-success (401) HTTP response whose body happens
to parse as a per-statement result array makes `fetch_remote_rows` return
success with rows instead of failing: the row-fetch convenience never checks
the outer HTTP status. -/
theorem C6_counterexample :
    SyncDb.isSuccessStatus 401 = false ∧
    SyncDb.fetchRemoteRows ⟨401, "x", some [SyncDb.TursoItemResponse.success ⟨[], []⟩]⟩ =
      .ok [] :=
  ⟨by decide, rfl⟩

/-- C6 (amended): `execute_remote_batch` fails on every non-success HTTP
status with the server-error message, without parsing per-statement results;
`fetch_remote_rows`, however, performs no status check at all — its result
is independent of the HTTP status code and is determined by the parsed body
alone. -/
theorem C6_status_gate (resp : SyncDb.RemoteHttpResponse)
    (h : SyncDb.isSuccessStatus resp.statusCode = false) :
    SyncDb.executeRemoteBatch resp =
      .error ("Server error: " ++ toString resp.statusCode ++ " - " ++ resp.bodyText) ∧
    ∀ c : Nat, SyncDb.fetchRemoteRows ⟨c, resp.bodyText, resp.parsedBody⟩ =
      SyncDb.fetchRemoteRows resp := by
  constructor
  · simp [SyncDb.executeRemoteBatch, h]
  · intro c; rfl

/-- C6 witness: a 500 response fails the batch call with the server-error
message. -/
theorem C6_witness :
    SyncDb.executeRemoteBatch ⟨500, "boom", none⟩ =
      .error ("Server error: " ++ toString (500 : Nat) ++ " - " ++ "boom") :=
  (C6_status_gate ⟨500, "boom", none⟩ (by decide)).1

/-- C9: a success-status response whose body does not parse as the
per-statement result array makes `execute_remote_batch` report success: the
parse failure is only logged. -/
theorem C9_unparseable_body_ok (resp : SyncDb.RemoteHttpResponse)
    (h1 : SyncDb.isSuccessStatus resp.statusCode = true)
    (h2 : resp.parsedBody = none) :
    SyncDb.executeRemoteBatch resp = .ok () := by
  simp [SyncDb.executeRemoteBatch, h1, h2]

/-- C9 witness: status 200 with an unparseable body yields success. -/
theorem C9_witness : SyncDb.executeRemoteBatch ⟨200, "not json", none⟩ = .ok () :=
  C9_unparseable_body_ok ⟨200, "not json", none⟩ (by decide) rfl

/-- C7: the `sync_all` fan-in inspects every per-table outcome: the
aggregate succeeds exactly when every table task succeeded, and the
collected failure list contains exactly the per-table error messages (all of
them, not just the first). -/
theorem C7_aggregate_outcome (results : List (Except String Unit)) :
    (SyncDb.syncAllAggregate results = .ok () ↔ ∀ r ∈ results, r = .ok ()) ∧
    (∀ e : String, e ∈ SyncDb.collectErrors results ↔ Except.error e ∈ results) := by
  have hc : SyncDb.collectErrors results = [] ↔ ∀ r ∈ results, r = .ok () := by
    unfold SyncDb.collectErrors
    rw [List.filterMap_eq_nil_iff]
    constructor
    · intro h r hrm
      have h2 := h r hrm
      cases r with
      | ok u => cases u; rfl
      | error e => simp at h2
    · intro h r hrm
      rw [h r hrm]
  constructor
  · constructor
    · intro hok
      rw [← hc]
      cases hce : SyncDb.collectErrors results with
      | nil => rfl
      | cons a l =>
        unfold SyncDb.syncAllAggregate at hok
        rw [hce] at hok
        simp at hok
    · intro hall
      have h0 : SyncDb.collectErrors results = [] := hc.mpr hall
      simp [SyncDb.syncAllAggregate, h0]
  · intro e
    unfold SyncDb.collectErrors
    rw [List.mem_filterMap]
    constructor
    · rintro ⟨r, hrm, hfr⟩
      cases r with
      | ok u => simp at hfr
      | error x =>
        simp only [Option.some.injEq] at hfr
        rw [← hfr]
        exact hrm
    · intro hrm
      exact ⟨.error e, hrm, rfl⟩

/-- C7 witness: the aggregate of an all-success outcome list is success. -/
theorem C7_witness : SyncDb.syncAllAggregate [.ok (), .ok ()] = .ok () :=
  (C7_aggregate_outcome [.ok (), .ok ()]).1.mpr (by intro r hrm; fin_cases hrm <;> rfl)

/-- C10: `close` clears only the database and connection handles: with cloud
sync enabled, after `close` the sync flag still reads true and the sync URL
is unchanged, while `get_connection` fails with the not-initialized error. -/
theorem C10_close_frame (s : Backend.DbState) (h : s.isSyncEnabled = true) :
    (Backend.DbState.close s).isCloudSyncEnabled = true ∧
    (Backend.DbState.close s).getSyncUrl = s.getSyncUrl ∧
    (Backend.DbState.close s).getConnection = .error "Database not initialized" :=
  ⟨h, rfl, rfl⟩

/-- C10 witness: a fully initialized cloud-enabled state, closed. -/
theorem C10_witness :
    (Backend.DbState.close ⟨true, true, true, "libsql://db.example"⟩).isCloudSyncEnabled = true ∧
    (Backend.DbState.close ⟨true, true, true, "libsql://db.example"⟩).getSyncUrl =
      Backend.DbState.getSyncUrl ⟨true, true, true, "libsql://db.example"⟩ ∧
    (Backend.DbState.close ⟨true, true, true, "libsql://db.example"⟩).getConnection =
      .error "Database not initialized" :=
  C10_close_frame ⟨true, true, true, "libsql://db.example"⟩ rfl

/-- C3: the ledger row written at the end of a cycle stores the cycle's
captured start time `now`; therefore, whenever the clock read at the start
of a cycle is at least the previously stored watermark (in the encoding of
the table's `updated_at` type), the stored `last_sync_time` after the cycle
is at least its value before the cycle. -/
theorem C3_watermark_monotone (isInt : Bool) (cols pks : List String) (now : String)
    (st : SyncDb.TableState) (w : String)
    (hw : SyncDb.storedWatermark st = some w)
    (hclock : SyncDb.wmLeB isInt w now = true) :
    SyncDb.storedWatermark ((SyncDb.syncTable isInt cols pks now st).1) = some now ∧
    ∀ w2, SyncDb.storedWatermark ((SyncDb.syncTable isInt cols pks now st).1) = some w2 →
      SyncDb.wmLeB isInt w w2 = true := by
  have h : SyncDb.storedWatermark ((SyncDb.syncTable isInt cols pks now st).1) = some now := rfl
  refine ⟨h, fun w2 hw2 => ?_⟩
  rw [h] at hw2
  injection hw2 with h2
  rw [← h2]
  exact hclock

/-- C3 witness: integer-typed table, watermark "50", cycle at now = "100". -/
theorem C3_witness :
    SyncDb.storedWatermark ((SyncDb.syncTable true ["id"] ["id"] "100"
      ⟨[], [], some (some "50", 1)⟩).1) = some "100" :=
  (C3_watermark_monotone true ["id"] ["id"] "100" ⟨[], [], some (some "50", 1)⟩ "50"
    rfl (by decide)).1

/-- C4 counterexample: with the legacy stored watermark
"2024-01-01 00:00:00" on an integer-typed table, the cycle filters its
queries on the converted value "1704067200000", but what gets persisted at
the end of the cycle is the cycle's start time, not the converted value. -/
theorem C4_counterexample :
    (SyncDb.syncTable true ["id", "updated_at"] ["id"] "1760000000000"
        ⟨[], [], some (some "2024-01-01 00:00:00", 3)⟩).2.usedWatermark = "1704067200000" ∧
    SyncDb.storedWatermark (SyncDb.syncTable true ["id", "updated_at"] ["id"] "1760000000000"
        ⟨[], [], some (some "2024-01-01 00:00:00", 3)⟩).1 = some "1760000000000" ∧
    (some "1760000000000" : Option String) ≠ some "1704067200000" :=
  ⟨by decide, by decide, by decide⟩

/-- C4 (amended): for an integer-typed table whose stored watermark does not
parse as an integer, the cycle reinterprets it as a legacy date-time string
and filters the push/pull queries on the converted millisecond value (or on
zero when that also fails, without failing the cycle — the model is total);
the value persisted at the end of the cycle is the cycle's start time in the
integer encoding, not the converted legacy value itself. -/
theorem C4_legacy_watermark (cols pks : List String) (st : SyncDb.TableState)
    (now w : String) (c : Nat)
    (hst : st.status = some (some w, c))
    (hint : SyncDb.parseI64? w = none) :
    (∀ ms, SyncDb.parseDateTimeMillis w = some ms →
      (SyncDb.syncTable true cols pks now st).2.usedWatermark = toString ms) ∧
    (SyncDb.parseDateTimeMillis w = none →
      (SyncDb.syncTable true cols pks now st).2.usedWatermark = "0") ∧
    (SyncDb.syncTable true cols pks now st).2.pushedRows =
      SyncDb.selectNewer true cols ((SyncDb.syncTable true cols pks now st).2.usedWatermark)
        st.localTbl ∧
    SyncDb.storedWatermark (SyncDb.syncTable true cols pks now st).1 = some now := by
  have hread : SyncDb.readWatermark true st.status = w := by rw [hst]; rfl
  refine ⟨?_, ?_, ?_, rfl⟩
  · intro ms hms
    show SyncDb.normalizeWatermark true (SyncDb.readWatermark true st.status) = toString ms
    rw [hread]
    simp [SyncDb.normalizeWatermark, hint, hms]
  · intro hnone
    show SyncDb.normalizeWatermark true (SyncDb.readWatermark true st.status) = "0"
    rw [hread]
    simp [SyncDb.normalizeWatermark, hint, hnone]
  · exact SyncDb.pushChanges_fst_eq true cols pks _ st.localTbl st.remoteTbl

/-- C4 witness: the legacy date string is converted to its millisecond value
and used as the cycle's filter watermark. -/
theorem C4_witness :
    (SyncDb.syncTable true ["id", "updated_at"] ["id"] "999"
        ⟨[], [], some (some "2024-01-01 00:00:00", 1)⟩).2.usedWatermark =
      toString (1704067200000 : Int) :=
  (C4_legacy_watermark ["id", "updated_at"] ["id"]
      ⟨[], [], some (some "2024-01-01 00:00:00", 1)⟩ "999" "2024-01-01 00:00:00" 1
      rfl (by decide)).1 1704067200000 (by decide)

/-- C8: when cloud validation succeeded, the first build failed with a
known incompatible-generation signature, and the rename succeeds, recovery
performs exactly: delete the prior quarantine backup (when present), rename
the local file to the quarantine suffix, delete the WAL and SHM side files,
delete the replication-metadata directory (when present), then retry the
build exactly once; the outcome is cloud mode exactly when the retry
succeeds, and local-only otherwise.  A failure not matching any known
signature falls back to local-only with no recovery steps and no retry. -/
theorem C8_quarantine_recovery (dbPath : String) (env : Backend.CloudEnv) (e : String)
    (hv : env.validateOk = true)
    (hf : env.firstBuild = .error e)
    (hrn : env.fs.renameFails = false) :
    (Backend.shouldRecover e = true →
      (Backend.initCloudDbConnection dbPath env).2 =
        [Backend.RecoveryStep.buildAttempt]
          ++ (if env.fs.legacyExists then
                [Backend.RecoveryStep.removeFile (Backend.legacyPath dbPath)]
              else [])
          ++ [Backend.RecoveryStep.renameFile dbPath (Backend.legacyPath dbPath),
              Backend.RecoveryStep.removeFile (Backend.walPath dbPath),
              Backend.RecoveryStep.removeFile (Backend.shmPath dbPath)]
          ++ (if env.fs.syncDirExists then
                (if env.fs.syncDirIsDir then
                  [Backend.RecoveryStep.removeDirAll (Backend.syncDirPath dbPath)]
                 else [Backend.RecoveryStep.removeFile (Backend.syncDirPath dbPath)])
              else [])
          ++ [Backend.RecoveryStep.buildAttempt] ∧
      ((Backend.initCloudDbConnection dbPath env).1 = .cloud ↔ env.secondBuild = .ok ())) ∧
    (Backend.shouldRecover e = false →
      Backend.initCloudDbConnection dbPath env =
        (.localOnly, [Backend.RecoveryStep.buildAttempt])) := by
  constructor
  · intro hrec
    simp only [Backend.initCloudDbConnection, hv, hf, hrec, hrn, Bool.not_true,
      Bool.false_eq_true, if_false, if_true]
    cases hs : env.secondBuild with
    | ok u =>
      cases u
      refine ⟨by simp, by simp⟩
    | error e2 =>
      refine ⟨by simp, by simp⟩
  · intro hrec
    simp only [Backend.initCloudDbConnection, hv, hf, hrec, Bool.not_true,
      Bool.false_eq_true, if_false]

/-- C8 witness: a generation-mismatch failure with a prior backup present
and a metadata directory present performs the full quarantine sequence with
computed concrete paths and retries once. -/
theorem C8_witness :
    (Backend.initCloudDbConnection "/data/app.db"
        ⟨true, .error "Generation ID mismatch", .ok (), ⟨true, false, true, true⟩⟩).2 =
      [Backend.RecoveryStep.buildAttempt,
       Backend.RecoveryStep.removeFile "/data/app.db.legacy",
       Backend.RecoveryStep.renameFile "/data/app.db" "/data/app.db.legacy",
       Backend.RecoveryStep.removeFile "/data/app.db-wal",
       Backend.RecoveryStep.removeFile "/data/app.db-shm",
       Backend.RecoveryStep.removeDirAll "/data/app.db-sync",
       Backend.RecoveryStep.buildAttempt] :=
  (((C8_quarantine_recovery "/data/app.db"
      ⟨true, .error "Generation ID mismatch", .ok (), ⟨true, false, true, true⟩⟩
      "Generation ID mismatch" rfl rfl rfl).1 (by decide)).1).trans (by decide)

/-- C2 counterexample: two back-to-back cycles on a quiescent table move
zero rows on the second invocation, yet the stored `last_sync_time` after
the second cycle is the second cycle's start time, not the value left by the
first cycle: the watermark is rewritten at the end of every cycle. -/
theorem C2_counterexample :
    (SyncDb.syncTable true ["id", "updated_at"] ["id"] "200"
        (SyncDb.syncTable true ["id", "updated_at"] ["id"] "100" ⟨[], [], none⟩).1).2.pushedRows
      = [] ∧
    (SyncDb.syncTable true ["id", "updated_at"] ["id"] "200"
        (SyncDb.syncTable true ["id", "updated_at"] ["id"] "100" ⟨[], [], none⟩).1).2.fetchedRows
      = [] ∧
    SyncDb.storedWatermark
        (SyncDb.syncTable true ["id", "updated_at"] ["id"] "100" ⟨[], [], none⟩).1 = some "100" ∧
    SyncDb.storedWatermark
        (SyncDb.syncTable true ["id", "updated_at"] ["id"] "200"
          (SyncDb.syncTable true ["id", "updated_at"] ["id"] "100" ⟨[], [], none⟩).1).1 =
      some "200" ∧
    SyncDb.storedWatermark
        (SyncDb.syncTable true ["id", "updated_at"] ["id"] "200"
          (SyncDb.syncTable true ["id", "updated_at"] ["id"] "100" ⟨[], [], none⟩).1).1 ≠
      SyncDb.storedWatermark
        (SyncDb.syncTable true ["id", "updated_at"] ["id"] "100" ⟨[], [], none⟩).1 :=
  ⟨by decide, by decide, by decide, by decide, by decide⟩

/-- C2 (amended): with no intervening writes and every row timestamp at most
the first cycle's start time, the second invocation moves zero rows — push
selects nothing, pull fetches and applies nothing, no conflict is counted,
and both tables are left untouched — while the stored watermark is rewritten
to the second cycle's start time (so it is unchanged only when both cycles
capture the same clock value). -/
theorem C2_second_cycle_noop (cols pks : List String) (st : SyncDb.TableState)
    (now1 now2 : String) (b n1 : Int)
    (hl : ∀ r ∈ st.localTbl, SyncDb.uaIntLe cols b r = true)
    (hr : ∀ r ∈ st.remoteTbl, SyncDb.uaIntLe cols b r = true)
    (h1 : SyncDb.parseI64? now1 = some n1)
    (hbn : b ≤ n1) :
    (SyncDb.syncTable true cols pks now2
        ((SyncDb.syncTable true cols pks now1 st).1)).2.pushedRows = [] ∧
    (SyncDb.syncTable true cols pks now2
        ((SyncDb.syncTable true cols pks now1 st).1)).2.fetchedRows = [] ∧
    (SyncDb.syncTable true cols pks now2
        ((SyncDb.syncTable true cols pks now1 st).1)).2.conflictCount = 0 ∧
    (SyncDb.syncTable true cols pks now2
        ((SyncDb.syncTable true cols pks now1 st).1)).1.localTbl =
      ((SyncDb.syncTable true cols pks now1 st).1).localTbl ∧
    (SyncDb.syncTable true cols pks now2
        ((SyncDb.syncTable true cols pks now1 st).1)).1.remoteTbl =
      ((SyncDb.syncTable true cols pks now1 st).1).remoteTbl ∧
    SyncDb.storedWatermark
        (SyncDb.syncTable true cols pks now2
          ((SyncDb.syncTable true cols pks now1 st).1)).1 = some now2 := by
  set st1 := (SyncDb.syncTable true cols pks now1 st).1 with hst1
  have hr1 : ∀ r ∈ st1.remoteTbl, SyncDb.uaIntLe cols b r = true := by
    intro r hrm
    have hmem : r ∈ (SyncDb.pushChanges true cols pks
        (SyncDb.normalizeWatermark true (SyncDb.readWatermark true st.status))
        st.localTbl st.remoteTbl).2 := hrm
    rcases SyncDb.mem_pushChanges_snd true cols pks _ _ _ r hmem with h2 | h2
    · exact hr r h2
    · exact hl r h2
  have hl1 : ∀ r ∈ st1.localTbl, SyncDb.uaIntLe cols b r = true := by
    intro r hrm
    have hmem : r ∈ (SyncDb.pullChanges true cols pks
        (SyncDb.normalizeWatermark true (SyncDb.readWatermark true st.status))
        ((SyncDb.pushChanges true cols pks
          (SyncDb.normalizeWatermark true (SyncDb.readWatermark true st.status))
          st.localTbl st.remoteTbl).2) st.localTbl).2.1 := hrm
    rcases SyncDb.mem_pullChanges_fst_local true cols pks _ _ _ r hmem with h2 | h2
    · exact hl r h2
    · exact hr1 r h2
  have hwm : SyncDb.normalizeWatermark true (SyncDb.readWatermark true st1.status) = now1 := by
    have hread : SyncDb.readWatermark true st1.status = now1 := rfl
    rw [hread]
    simp [SyncDb.normalizeWatermark, h1]
  have hsl : SyncDb.selectNewer true cols now1 st1.localTbl = [] :=
    SyncDb.sel_nil_of_bounded cols b n1 now1 _ hl1 h1 hbn
  have hsr : SyncDb.selectNewer true cols now1 st1.remoteTbl = [] :=
    SyncDb.sel_nil_of_bounded cols b n1 now1 _ hr1 h1 hbn
  have hpush : SyncDb.pushChanges true cols pks now1 st1.localTbl st1.remoteTbl =
      ([], st1.remoteTbl) :=
    SyncDb.pushChanges_of_sel_nil true cols pks now1 _ _ hsl
  have hpull : SyncDb.pullChanges true cols pks now1 st1.remoteTbl st1.localTbl =
      ([], (st1.localTbl, 0)) :=
    SyncDb.pullChanges_of_sel_nil true cols pks now1 _ _ hsr
  have hsync : SyncDb.syncTable true cols pks now2 st1 =
      (⟨st1.localTbl, st1.remoteTbl,
        some (some now2,
          match st1.status with
          | some (_, c) => c + 1
          | none => 1)⟩,
       ⟨now1, [], [], 0⟩) := by
    simp only [SyncDb.syncTable, hwm, hpush, hpull]
  refine ⟨?_, ?_, ?_, ?_, ?_, ?_⟩ <;> rw [hsync] <;> rfl

/-- C2 witness: one local row with timestamp 50, first cycle at 100, second
cycle at 200: the second invocation moves nothing and stores "200". -/
theorem C2_witness :
    (SyncDb.syncTable true ["id", "updated_at"] ["id"] "200"
        ((SyncDb.syncTable true ["id", "updated_at"] ["id"] "100"
          ⟨[[some "1", some "50"]], [], none⟩).1)).2.pushedRows = [] ∧
    (SyncDb.syncTable true ["id", "updated_at"] ["id"] "200"
        ((SyncDb.syncTable true ["id", "updated_at"] ["id"] "100"
          ⟨[[some "1", some "50"]], [], none⟩).1)).2.fetchedRows = [] ∧
    (SyncDb.syncTable true ["id", "updated_at"] ["id"] "200"
        ((SyncDb.syncTable true ["id", "updated_at"] ["id"] "100"
          ⟨[[some "1", some "50"]], [], none⟩).1)).2.conflictCount = 0 ∧
    (SyncDb.syncTable true ["id", "updated_at"] ["id"] "200"
        ((SyncDb.syncTable true ["id", "updated_at"] ["id"] "100"
          ⟨[[some "1", some "50"]], [], none⟩).1)).1.localTbl =
      ((SyncDb.syncTable true ["id", "updated_at"] ["id"] "100"
          ⟨[[some "1", some "50"]], [], none⟩).1).localTbl ∧
    (SyncDb.syncTable true ["id", "updated_at"] ["id"] "200"
        ((SyncDb.syncTable true ["id", "updated_at"] ["id"] "100"
          ⟨[[some "1", some "50"]], [], none⟩).1)).1.remoteTbl =
      ((SyncDb.syncTable true ["id", "updated_at"] ["id"] "100"
          ⟨[[some "1", some "50"]], [], none⟩).1).remoteTbl ∧
    SyncDb.storedWatermark
        (SyncDb.syncTable true ["id", "updated_at"] ["id"] "200"
          ((SyncDb.syncTable true ["id", "updated_at"] ["id"] "100"
            ⟨[[some "1", some "50"]], [], none⟩).1)).1 = some "200" :=
  C2_second_cycle_noop ["id", "updated_at"] ["id"] ⟨[[some "1", some "50"]], [], none⟩
    "100" "200" 50 100 (by decide) (by decide) (by decide) (by decide)
